import Mathlib

/-!
# Verification of the boxnav core: 2D points, rotated boxes, and the box navigator

A shallow embedding of the repository's geometric core (`src/box/box.py`) and of
the navigator state machine (`src/box/boxnavigator.py`).  Python floats are
modelled as real numbers; the trigonometric and square-root functions of
`math` are modelled by Mathlib's `Real.cos`, `Real.sin`, `Real.arctan` and
`Real.sqrt`.  The box environment (`src/box/boxenv.py` is not part of the
sources; only its callers are) is modelled from the specification where noted.
-/

namespace BoxNav

open scoped Classical

noncomputable section

/-- `Pt` from box.py: the x and y values of a point in R^2. -/
structure Pt where
  x : ℝ
  y : ℝ

/-- `approx_equal` from box.py: are two floats within `threshold` of each other. -/
def approx_equal (a b threshold : ℝ) : Prop := |a - b| < threshold

/-- `Pt.__sub__`: componentwise difference. -/
instance : Sub Pt := ⟨fun p q => ⟨p.x - q.x, p.y - q.y⟩⟩

/-- `Pt.__add__`: componentwise sum. -/
instance : Add Pt := ⟨fun p q => ⟨p.x + q.x, p.y + q.y⟩⟩

/-- `Pt.__mul__`: scale a point by a scalar. -/
instance : HMul Pt ℝ Pt := ⟨fun p s => ⟨p.x * s, p.y * s⟩⟩

/-- `Pt.magnitude`: the Euclidean norm `sqrt(x*x + y*y)`. -/
def Pt.magnitude (p : Pt) : ℝ := Real.sqrt (p.x * p.x + p.y * p.y)

/-- `Pt.normalized`: divide both components by `magnitude() + 0.0000001`. -/
def Pt.normalized (p : Pt) : Pt :=
  ⟨p.x / (p.magnitude + 0.0000001), p.y / (p.magnitude + 0.0000001)⟩

/-- `Pt.scalar_product`: the dot product of two points. -/
def Pt.scalar_product (A B : Pt) : ℝ := A.x * B.x + A.y * B.y

/-- `Pt.determinant`: the 2x2 determinant of two points. -/
def Pt.determinant (A B : Pt) : ℝ := A.x * B.y - A.y * B.x

/-- `Pt.distance`: the Euclidean distance between two points. -/
def Pt.distance (A B : Pt) : ℝ := Real.sqrt ((A.x - B.x) ^ 2 + (A.y - B.y) ^ 2)

/-- `math.atan2(y, x)` as the Python/C library defines it on the reals
(signed zeros do not exist in `ℝ`; `atan2 0 0 = 0` as in Python). -/
def atan2 (y x : ℝ) : ℝ :=
  if 0 < x then Real.arctan (y / x)
  else if x < 0 then
    (if 0 ≤ y then Real.arctan (y / x) + Real.pi else Real.arctan (y / x) - Real.pi)
  else
    (if 0 < y then Real.pi / 2 else if y < 0 then -(Real.pi / 2) else 0)

/-- `Pt.angle_between`: the signed angle in radians from `self` to `other`,
`atan2(determinant(self, other), scalar_product(self, other))`. -/
def Pt.angle_between (self other : Pt) : ℝ :=
  atan2 (Pt.determinant self other) (Pt.scalar_product self other)

/-- `close_enough` from box.py: is the distance between two points below the
threshold. -/
def close_enough (A B : Pt) (threshold : ℝ) : Prop :=
  (A - B).magnitude < threshold

/-- `math.radians`: degrees to radians. -/
def radians (d : ℝ) : ℝ := d * (Real.pi / 180)

/-- `math.degrees`: radians to degrees. -/
def degrees (r : ℝ) : ℝ := r * (180 / Real.pi)

/-- `rotate_point` from box.py: rotate a point about the coordinate origin by
`rotation` radians, with exactly the source's component formulas. -/
def rotate_point (corner : Pt) (rotation : ℝ) : Pt :=
  ⟨corner.x * Real.cos rotation - corner.y * Real.sin rotation,
   corner.y * Real.cos rotation + corner.x * Real.sin rotation⟩

/-- `compute_angle_between_points` from box.py: `atan2(B.x - A.x, B.y - A.y)`. -/
def compute_angle_between_points (A B : Pt) : ℝ :=
  atan2 (B.x - A.x) (B.y - A.y)

/-- `Box` from box.py: three corners, an interior target, the rotation, and
every derived field `__init__` caches. -/
structure Box where
  A : Pt
  B : Pt
  C : Pt
  target : Pt
  rotation : ℝ
  AB : Pt
  dotAB : ℝ
  BC : Pt
  dotBC : ℝ
  left : ℝ
  lower : ℝ
  upper : ℝ
  right : ℝ
  origin : ℝ × ℝ
  width : ℝ
  height : ℝ
  angle_degrees : ℝ

/-- `Box.__init__`: store the three corners and target, rotate all four about
the origin when `rotation != 0`, then compute the derived fields from the
(possibly rotated) points. -/
def Box.make (lower_left upper_left upper_right tgt : Pt) (rotation : ℝ) : Box :=
  let A := if rotation ≠ 0 then rotate_point lower_left rotation else lower_left
  let B := if rotation ≠ 0 then rotate_point upper_left rotation else upper_left
  let C := if rotation ≠ 0 then rotate_point upper_right rotation else upper_right
  let target := if rotation ≠ 0 then rotate_point tgt rotation else tgt
  { A := A
    B := B
    C := C
    target := target
    rotation := rotation
    AB := B - A
    dotAB := Pt.scalar_product (B - A) (B - A)
    BC := C - B
    dotBC := Pt.scalar_product (C - B) (C - B)
    left := min (min A.x B.x) C.x
    lower := min (min A.y B.y) C.y
    upper := max (max A.y B.y) C.y
    right := max (max A.x B.x) C.x
    origin := (min (min A.x B.x) C.x, min (min A.y B.y) C.y)
    width := Pt.distance B C
    height := Pt.distance A B
    angle_degrees := degrees (compute_angle_between_points A B) }

/-- `Box.point_is_inside`: the projection test
`0 <= AB·AM <= dotAB and 0 <= BC·BM <= dotBC` with `AM = M - A`, `BM = M - B`. -/
def Box.point_is_inside (b : Box) (M : Pt) : Prop :=
  (0 ≤ Pt.scalar_product b.AB (M - b.A) ∧ Pt.scalar_product b.AB (M - b.A) ≤ b.dotAB) ∧
  (0 ≤ Pt.scalar_product b.BC (M - b.B) ∧ Pt.scalar_product b.BC (M - b.B) ≤ b.dotBC)

/-- `aligned_box` from box.py: an axis-aligned box through the general
constructor. -/
def aligned_box (left right lower upper : ℝ) (target : ℝ × ℝ) (rotation : ℝ) : Box :=
  Box.make ⟨left, lower⟩ ⟨left, upper⟩ ⟨right, upper⟩ ⟨target.1, target.2⟩ rotation

/-- The box of the reference geometry check at the bottom of box.py. -/
def scenario_box : Box := Box.make ⟨5, 0⟩ ⟨0, 2⟩ ⟨1, 5⟩ ⟨0, 0⟩ 0

/-- A box whose edge `AB` has length zero: `dotAB = 0`. -/
def degenerate_box : Box := Box.make ⟨0, 0⟩ ⟨0, 0⟩ ⟨1, 0⟩ ⟨0, 0⟩ 0

/-- `Action` from boxnavigator.py. -/
inductive Action where
  | FORWARD
  | BACKWARD
  | ROTATE_LEFT
  | ROTATE_RIGHT
deriving DecidableEq

/-- `BoxEnv` from boxenv.py (file not in the sources): an ordered collection
of boxes forming a path. -/
structure BoxEnv where
  boxes : List Box

/-- Modelled from the spec: `BoxEnv.get_boxes_enclosing_point`
(src/box/boxenv.py is not among the sources, only its callers are).
Spec, BoxEnvironment: "returns every box (in environment order) whose
`point_is_inside(point)` holds". -/
def BoxEnv.get_boxes_enclosing_point (env : BoxEnv) (p : Pt) : List Box :=
  env.boxes.filter (fun b => decide (b.point_is_inside p))

/-- `BoxNavigatorBase`'s mutable state: the fields `__init__` sets. -/
structure NavState where
  env : BoxEnv
  position : Pt
  rotation : ℝ
  target : Pt
  final_target : Pt
  distance_threshold : ℝ
  movement_increment : ℝ
  rotation_increment : ℝ
  half_target_wedge : ℝ
  actions_taken : ℕ
  current_box : Box

/-- `BoxNavigatorBase.__init__`: the caller passes position, rotation, the
environment, `distance_threshold`, `movement_increment` and
`rotation_increment`; the target starts at the first box's target, the final
target is the last box's target, and `half_target_wedge` is set to
`radians(6)` (it is not a constructor parameter). -/
def mkNavigator (position : Pt) (rotation : ℝ) (env : BoxEnv) (h : env.boxes ≠ [])
    (distance_threshold movement_increment rotation_increment : ℝ) : NavState :=
  { env := env
    position := position
    rotation := rotation
    target := (env.boxes.head h).target
    final_target := (env.boxes.getLast h).target
    distance_threshold := distance_threshold
    movement_increment := movement_increment
    rotation_increment := rotation_increment
    half_target_wedge := radians 6
    actions_taken := 0
    current_box := env.boxes.head h }

/-- `BoxNavigatorBase.at_final_target`. -/
def NavState.at_final_target (s : NavState) : Prop :=
  close_enough s.position s.final_target s.distance_threshold

/-- The `signed_angle_to_target` computed inside `correct_action`: the signed
angle from the normalized heading vector `Pt(cos(rotation), sin(rotation))`
to the normalized vector `target - position`. -/
def NavState.signed_angle_to_target (s : NavState) : ℝ :=
  (Pt.mk (Real.cos s.rotation) (Real.sin s.rotation)).normalized.angle_between
    ((s.target - s.position).normalized)

/-- `BoxNavigatorBase.correct_action`: FORWARD inside the wedge, else
ROTATE_LEFT for a positive signed angle, else ROTATE_RIGHT. -/
def NavState.correct_action (s : NavState) : Action :=
  if |s.signed_angle_to_target| < s.half_target_wedge then Action.FORWARD
  else if 0 < s.signed_angle_to_target then Action.ROTATE_LEFT
  else Action.ROTATE_RIGHT

/-- `BoxNavigatorBase.update_target`: when the position is close enough to the
current target and more than one box encloses the position, advance the
target and current box to the last enclosing box. -/
def NavState.update_target (s : NavState) : NavState :=
  if h : close_enough s.position s.target s.distance_threshold ∧
      1 < (s.env.get_boxes_enclosing_point s.position).length then
    let lastBox := (s.env.get_boxes_enclosing_point s.position).getLast
      (List.ne_nil_of_length_pos (lt_trans Nat.zero_lt_one h.2))
    { s with target := lastBox.target, current_box := lastBox }
  else s

/-- The candidate point of `move_forward`:
`position + movement_increment * (cos rotation, sin rotation)`. -/
def NavState.forward_candidate (s : NavState) : Pt :=
  ⟨s.position.x + s.movement_increment * Real.cos s.rotation,
   s.position.y + s.movement_increment * Real.sin s.rotation⟩

/-- The candidate point of `move_backward`:
`position - movement_increment * (cos rotation, sin rotation)`. -/
def NavState.backward_candidate (s : NavState) : Pt :=
  ⟨s.position.x - s.movement_increment * Real.cos s.rotation,
   s.position.y - s.movement_increment * Real.sin s.rotation⟩

/-- The candidate point an action computes, when it moves at all. -/
def NavState.action_candidate (s : NavState) : Action → Option Pt
  | Action.FORWARD => some s.forward_candidate
  | Action.BACKWARD => some s.backward_candidate
  | _ => none

/-- `BoxNavigatorBase.can_move_to_point`: is the point inside the current box. -/
def NavState.can_move_to_point (s : NavState) (pt : Pt) : Prop :=
  s.current_box.point_is_inside pt

/-- `BoxNavigatorBase.checked_move`: move to the point iff it is inside the
current box; the Bool is the returned success flag. -/
def NavState.checked_move (s : NavState) (new_pt : Pt) : NavState × Bool :=
  if s.current_box.point_is_inside new_pt then ({ s with position := new_pt }, true)
  else (s, false)

/-- `BoxNavigatorBase.move_forward`: test the candidate with
`can_move_to_point`, then commit it through `checked_move`.  The Python
function returns `True` on success and falls through returning `None`
otherwise; the falsy `None` is modelled as `false`. -/
def NavState.move_forward (s : NavState) : NavState × Bool :=
  if s.can_move_to_point s.forward_candidate then ((s.checked_move s.forward_candidate).1, true)
  else (s, false)

/-- `BoxNavigatorBase.move_backward`: as `move_forward`, against the heading
(this one returns `False` explicitly in the source). -/
def NavState.move_backward (s : NavState) : NavState × Bool :=
  if s.can_move_to_point s.backward_candidate then ((s.checked_move s.backward_candidate).1, true)
  else (s, false)

/-- `BoxNavigatorBase.rotate_right`: decrease the rotation. -/
def NavState.rotate_right (s : NavState) : NavState :=
  { s with rotation := s.rotation - s.rotation_increment }

/-- `BoxNavigatorBase.rotate_left`: increase the rotation. -/
def NavState.rotate_left (s : NavState) : NavState :=
  { s with rotation := s.rotation + s.rotation_increment }

/-- `BoxNavigatorBase.take_action`: update the target, compute the correct
action, apply the strategy's chosen action (passed in for the strategy
dispatch), bump `actions_taken`, and return
`(action_taken, correct_action, valid_movement)` alongside the new state. -/
def NavState.take_action (s : NavState) (action_taken : Action) :
    NavState × Action × Action × Bool :=
  let s1 := s.update_target
  let correct := s1.correct_action
  let result : NavState × Bool :=
    match action_taken with
    | Action.FORWARD => s1.move_forward
    | Action.ROTATE_LEFT => (s1.rotate_left, false)
    | Action.ROTATE_RIGHT => (s1.rotate_right, false)
    | Action.BACKWARD => s1.move_backward
  ({ result.1 with actions_taken := result.1.actions_taken + 1 }, action_taken, correct, result.2)

/-- `WanderingNavigator.possible_actions`: the random set, BACKWARD excluded. -/
def possible_actions : List Action :=
  [Action.FORWARD, Action.ROTATE_LEFT, Action.ROTATE_RIGHT]

/-- `PerfectNavigator.navigator_specific_action`: always the correct action. -/
def perfect_navigator_action (s : NavState) : Action :=
  s.correct_action

/-- The default of `WanderingNavigator.__init__`'s `chance_of_random_action`. -/
def default_chance_of_random_action : ℝ := 0.25

/-- `WanderingNavigator.navigator_specific_action`: the uniform draw
`random()` in `[0,1)` is the parameter `r`, and `random.choice` over
`possible_actions` is the parameter `i` indexing the list. -/
def wandering_navigator_action (s : NavState) (chance_of_random_action r : ℝ)
    (i : Fin 3) : Action :=
  if r < chance_of_random_action then possible_actions.get ⟨i.val, i.isLt⟩
  else s.correct_action

/-- An axis-aligned box over `[0,10] × [0,10]`. -/
def box0 : Box := Box.make ⟨0, 0⟩ ⟨0, 10⟩ ⟨10, 10⟩ ⟨5, 5⟩ 0

/-- A one-box environment. -/
def env0 : BoxEnv := ⟨[box0]⟩

/-- A navigator standing at the origin facing its target at `(1, 0)`. -/
def navFacing : NavState :=
  { env := env0, position := ⟨0, 0⟩, rotation := 0, target := ⟨1, 0⟩,
    final_target := ⟨5, 5⟩, distance_threshold := 1, movement_increment := 1,
    rotation_increment := 1, half_target_wedge := radians 6, actions_taken := 0,
    current_box := box0 }

/-- A navigator whose forward step of length 2 from `(9, 5)` leaves `box0`. -/
def navBlocked : NavState :=
  { env := env0, position := ⟨9, 5⟩, rotation := 0, target := ⟨0, 0⟩,
    final_target := ⟨5, 5⟩, distance_threshold := 0, movement_increment := 2,
    rotation_increment := 1, half_target_wedge := radians 6, actions_taken := 0,
    current_box := box0 }

/-- A navigator standing at the middle of `box0`. -/
def nav0 : NavState :=
  { env := env0, position := ⟨5, 5⟩, rotation := 0, target := ⟨0, 0⟩,
    final_target := ⟨5, 5⟩, distance_threshold := 0, movement_increment := 1,
    rotation_increment := 1, half_target_wedge := radians 6, actions_taken := 0,
    current_box := box0 }

/-- An axis-aligned box over `[0,4] × [0,4]` with target `(2,2)`. -/
def boxA : Box := Box.make ⟨0, 0⟩ ⟨0, 4⟩ ⟨4, 4⟩ ⟨2, 2⟩ 0

/-- An axis-aligned box over `[0,2] × [0,2]` with target `(1,1)`. -/
def boxB : Box := Box.make ⟨0, 0⟩ ⟨0, 2⟩ ⟨2, 2⟩ ⟨1, 1⟩ 0

/-- A two-box environment whose boxes overlap on `[0,2] × [0,2]`. -/
def env2 : BoxEnv := ⟨[boxA, boxB]⟩

/-- A navigator sitting at its own target inside the overlap of `env2`. -/
def navOverlap : NavState :=
  { env := env2, position := ⟨1, 1⟩, rotation := 0, target := ⟨1, 1⟩,
    final_target := ⟨1, 1⟩, distance_threshold := 1, movement_increment := 1,
    rotation_increment := 1, half_target_wedge := radians 6, actions_taken := 0,
    current_box := boxA }

end

@[simp] theorem Pt.sub_x (p q : Pt) : (p - q).x = p.x - q.x := rfl

@[simp] theorem Pt.sub_y (p q : Pt) : (p - q).y = p.y - q.y := rfl

@[simp] theorem Pt.add_x (p q : Pt) : (p + q).x = p.x + q.x := rfl

@[simp] theorem Pt.add_y (p q : Pt) : (p + q).y = p.y + q.y := rfl

@[simp] theorem Pt.hmul_x (p : Pt) (s : ℝ) : (p * s).x = p.x * s := rfl

@[simp] theorem Pt.hmul_y (p : Pt) (s : ℝ) : (p * s).y = p.y * s := rfl

theorem env0_ne : env0.boxes ≠ [] := List.cons_ne_nil _ _

theorem env2_ne : env2.boxes ≠ [] := List.cons_ne_nil _ _

/-- C1: `point_is_inside` returns true iff both edge projections lie inclusively
between `0` and the cached squared edge length, and on the reference box
`Box(Pt(5,0), Pt(0,2), Pt(1,5), Pt(0,0))` the point `(4,2)` is inside while
`(6,1)` is not. -/
theorem point_is_inside_spec :
    (∀ (b : Box) (M : Pt), b.point_is_inside M ↔
      (0 ≤ Pt.scalar_product b.AB (M - b.A) ∧ Pt.scalar_product b.AB (M - b.A) ≤ b.dotAB ∧
       0 ≤ Pt.scalar_product b.BC (M - b.B) ∧ Pt.scalar_product b.BC (M - b.B) ≤ b.dotBC)) ∧
    scenario_box.point_is_inside ⟨4, 2⟩ ∧ ¬ scenario_box.point_is_inside ⟨6, 1⟩ := by
  refine ⟨fun b M => ?_, ?_, ?_⟩
  · unfold Box.point_is_inside
    tauto
  · norm_num [scenario_box, Box.make, Box.point_is_inside, Pt.scalar_product]
  · norm_num [scenario_box, Box.make, Box.point_is_inside, Pt.scalar_product]

/-- C2: `correct_action` computes the signed angle from the normalized heading
to the normalized to-target vector, returns FORWARD strictly inside the wedge,
ROTATE_LEFT for a positive angle at or beyond the wedge, ROTATE_RIGHT
otherwise, never BACKWARD; a zero signed angle yields FORWARD (the wedge is
positive). -/
theorem correct_action_spec (s : NavState) :
    s.signed_angle_to_target =
      (Pt.mk (Real.cos s.rotation) (Real.sin s.rotation)).normalized.angle_between
        ((s.target - s.position).normalized) ∧
    s.correct_action ≠ Action.BACKWARD ∧
    (|s.signed_angle_to_target| < s.half_target_wedge → s.correct_action = Action.FORWARD) ∧
    (¬ |s.signed_angle_to_target| < s.half_target_wedge → 0 < s.signed_angle_to_target →
      s.correct_action = Action.ROTATE_LEFT) ∧
    (¬ |s.signed_angle_to_target| < s.half_target_wedge → ¬ 0 < s.signed_angle_to_target →
      s.correct_action = Action.ROTATE_RIGHT) ∧
    (0 < s.half_target_wedge → s.signed_angle_to_target = 0 →
      s.correct_action = Action.FORWARD) := by
  refine ⟨rfl, ?_, ?_, ?_, ?_, ?_⟩
  · unfold NavState.correct_action
    split
    · simp
    · split <;> simp
  · intro hw; unfold NavState.correct_action; rw [if_pos hw]
  · intro hw hpos; unfold NavState.correct_action; rw [if_neg hw, if_pos hpos]
  · intro hw hpos; unfold NavState.correct_action; rw [if_neg hw, if_neg hpos]
  · intro hwedge h0
    unfold NavState.correct_action
    rw [if_pos (by rw [h0, abs_zero]; exact hwedge)]

/-- C5: `rotate_point` is exactly the source's component formula, and a box
built with a non-zero rotation has every field (the stored `rotation` apart)
equal to the corresponding field of the box built from the pre-rotated
points. -/
theorem rotation_applied_before_derived_fields (p : Pt) (θ : ℝ) (ll ul ur tgt : Pt) :
    rotate_point p θ =
      ⟨p.x * Real.cos θ - p.y * Real.sin θ, p.y * Real.cos θ + p.x * Real.sin θ⟩ ∧
    (θ ≠ 0 → Box.make ll ul ur tgt θ =
      { Box.make (rotate_point ll θ) (rotate_point ul θ) (rotate_point ur θ)
          (rotate_point tgt θ) 0 with rotation := θ }) := by
  refine ⟨rfl, fun hθ => ?_⟩
  simp [Box.make, hθ]

/-- C6 (counterexample to fail-fast construction): the constructor accepts the
corners `A = B = (0,0)`, `C = (1,0)` and produces a box object with
`dotAB = 0` on which `point_is_inside` still operates. -/
theorem degenerate_box_not_rejected :
    degenerate_box.dotAB = 0 ∧ degenerate_box.point_is_inside ⟨0.5, 0⟩ := by
  constructor
  · norm_num [degenerate_box, Box.make, Pt.scalar_product]
  · norm_num [degenerate_box, Box.make, Box.point_is_inside, Pt.scalar_product]

/-- C6 (amended): the degenerate box is constructed without any rejection and
its containment test is still well defined, degenerating to the strip
`0 ≤ x ≤ 1`. -/
theorem degenerate_box_containment (M : Pt) :
    degenerate_box.point_is_inside M ↔ 0 ≤ M.x ∧ M.x ≤ 1 := by
  norm_num [degenerate_box, Box.make, Box.point_is_inside, Pt.scalar_product]

/-- C7: `normalized` divides both components by `magnitude() + 1e-7`; the
result's magnitude is `m / (m + 1e-7)`, which is within the repository's
default `approx_equal` threshold of `1` whenever `m ≥ 0.001`; the zero vector
needs no special branch and maps to the zero vector. -/
theorem normalized_spec (p : Pt) :
    p.normalized = ⟨p.x / (p.magnitude + 0.0000001), p.y / (p.magnitude + 0.0000001)⟩ ∧
    p.normalized.magnitude = p.magnitude / (p.magnitude + 0.0000001) ∧
    (0.001 ≤ p.magnitude → approx_equal p.normalized.magnitude 1 0.0001) ∧
    (Pt.mk 0 0).normalized = ⟨0, 0⟩ := by
  have hm : 0 ≤ p.magnitude := Real.sqrt_nonneg _
  have hc : (0:ℝ) < p.magnitude + 0.0000001 := by linarith
  have hxy : 0 ≤ p.x * p.x + p.y * p.y :=
    add_nonneg (mul_self_nonneg _) (mul_self_nonneg _)
  have h2 : p.normalized.magnitude = p.magnitude / (p.magnitude + 0.0000001) := by
    have key : (p.x / (p.magnitude + 0.0000001)) * (p.x / (p.magnitude + 0.0000001)) +
        (p.y / (p.magnitude + 0.0000001)) * (p.y / (p.magnitude + 0.0000001)) =
        (p.x * p.x + p.y * p.y) / ((p.magnitude + 0.0000001) ^ 2) := by
      rw [div_mul_div_comm, div_mul_div_comm, div_add_div_same, sq]
    have e1 : p.normalized.magnitude =
        Real.sqrt ((p.x / (p.magnitude + 0.0000001)) * (p.x / (p.magnitude + 0.0000001)) +
          (p.y / (p.magnitude + 0.0000001)) * (p.y / (p.magnitude + 0.0000001))) := rfl
    rw [e1, key, Real.sqrt_div hxy, Real.sqrt_sq hc.le]
    rfl
  refine ⟨rfl, h2, fun hbig => ?_, ?_⟩
  · unfold approx_equal
    rw [h2]
    have hdiff : p.magnitude / (p.magnitude + 0.0000001) - 1 =
        -(0.0000001 / (p.magnitude + 0.0000001)) := by
      field_simp
    rw [hdiff, abs_neg, abs_of_pos (div_pos (by norm_num) hc), div_lt_iff₀ hc]
    linarith
  · unfold Pt.normalized
    simp

/-- C8: the perfect strategy returns exactly `correct_action` (never
BACKWARD), and the wandering strategy returns a member of
`possible_actions = [FORWARD, ROTATE_LEFT, ROTATE_RIGHT]` chosen by the draw
when it is below the chance parameter and `correct_action` otherwise; BACKWARD
is not in the random set and is never emitted. -/
theorem strategy_actions (s : NavState) (chance r : ℝ) (i : Fin 3) :
    perfect_navigator_action s = s.correct_action ∧
    perfect_navigator_action s ≠ Action.BACKWARD ∧
    s.correct_action ≠ Action.BACKWARD ∧
    (r < chance →
      wandering_navigator_action s chance r i = possible_actions.get ⟨i.val, i.isLt⟩) ∧
    (¬ r < chance → wandering_navigator_action s chance r i = s.correct_action) ∧
    wandering_navigator_action s chance r i ∈ possible_actions ∧
    Action.BACKWARD ∉ possible_actions := by
  have hcb : s.correct_action ≠ Action.BACKWARD := by
    unfold NavState.correct_action
    split
    · simp
    · split <;> simp
  have hcm : s.correct_action ∈ possible_actions := by
    unfold NavState.correct_action possible_actions
    split
    · simp
    · split <;> simp
  refine ⟨rfl, hcb, hcb, ?_, ?_, ?_, ?_⟩
  · intro h; unfold wandering_navigator_action; rw [if_pos h]
  · intro h; unfold wandering_navigator_action; rw [if_neg h]
  · unfold wandering_navigator_action
    split
    · exact List.get_mem _ _ _
    · exact hcm
  · simp [possible_actions]

/-- C9 (counterexample to all four constants being settable):
`half_target_wedge` comes out as `radians 6` regardless of the construction
arguments — it is not a constructor parameter. -/
theorem half_target_wedge_hardcoded :
    (mkNavigator ⟨0, 0⟩ 0 env0 env0_ne 1 2 3).half_target_wedge =
      (mkNavigator ⟨9, 9⟩ 1 env0 env0_ne 4 5 6).half_target_wedge ∧
    (mkNavigator ⟨0, 0⟩ 0 env0 env0_ne 1 2 3).half_target_wedge = radians 6 :=
  ⟨rfl, rfl⟩

/-- C9 (amended): `distance_threshold`, `movement_increment` and
`rotation_increment` are caller-settable constructor parameters stored
verbatim, while `half_target_wedge` is hardcoded to `radians 6` by the
constructor. -/
theorem mkNavigator_config (pos : Pt) (rot : ℝ) (env : BoxEnv) (h : env.boxes ≠ [])
    (d m r : ℝ) :
    (mkNavigator pos rot env h d m r).distance_threshold = d ∧
    (mkNavigator pos rot env h d m r).movement_increment = m ∧
    (mkNavigator pos rot env h d m r).rotation_increment = r ∧
    (mkNavigator pos rot env h d m r).half_target_wedge = radians 6 :=
  ⟨rfl, rfl, rfl, rfl⟩

/-- C9 witness: the three settable constants at a concrete construction. -/
theorem mkNavigator_config_witness :
    (mkNavigator ⟨0, 0⟩ 0 env0 env0_ne 1 2 3).distance_threshold = 1 ∧
    (mkNavigator ⟨0, 0⟩ 0 env0 env0_ne 1 2 3).movement_increment = 2 ∧
    (mkNavigator ⟨0, 0⟩ 0 env0 env0_ne 1 2 3).rotation_increment = 3 ∧
    (mkNavigator ⟨0, 0⟩ 0 env0 env0_ne 1 2 3).half_target_wedge = radians 6 :=
  mkNavigator_config ⟨0, 0⟩ 0 env0 env0_ne 1 2 3

theorem update_target_position (s : NavState) : s.update_target.position = s.position := by
  unfold NavState.update_target
  split <;> rfl

theorem mem_enclosing {env : BoxEnv} {p : Pt} {b : Box}
    (hb : b ∈ env.get_boxes_enclosing_point p) : b.point_is_inside p := by
  unfold BoxEnv.get_boxes_enclosing_point at hb
  rw [List.mem_filter] at hb
  exact of_decide_eq_true hb.2

theorem update_target_contain (s : NavState)
    (h : s.current_box.point_is_inside s.position) :
    s.update_target.current_box.point_is_inside s.update_target.position := by
  rw [update_target_position]
  unfold NavState.update_target
  split
  · exact mem_enclosing (List.getLast_mem _)
  · exact h

theorem checked_move_contain (s : NavState) (q : Pt)
    (h : s.current_box.point_is_inside s.position) :
    (s.checked_move q).1.current_box.point_is_inside (s.checked_move q).1.position := by
  unfold NavState.checked_move
  split
  next hq => exact hq
  next => exact h

theorem move_forward_contain (s : NavState)
    (h : s.current_box.point_is_inside s.position) :
    s.move_forward.1.current_box.point_is_inside s.move_forward.1.position := by
  unfold NavState.move_forward
  split
  next => exact checked_move_contain s _ h
  next => exact h

theorem move_backward_contain (s : NavState)
    (h : s.current_box.point_is_inside s.position) :
    s.move_backward.1.current_box.point_is_inside s.move_backward.1.position := by
  unfold NavState.move_backward
  split
  next => exact checked_move_contain s _ h
  next => exact h

/-- C3: when the chosen action is FORWARD or BACKWARD (so it has a candidate
point) and that candidate is not inside the current box, `take_action` leaves
the position exactly unchanged and reports `moved = false`. -/
theorem take_action_rejects_outside_move (s : NavState) (a : Action) (p : Pt)
    (hc : s.update_target.action_candidate a = some p)
    (hout : ¬ s.update_target.current_box.point_is_inside p) :
    (s.take_action a).1.position = s.position ∧ (s.take_action a).2.2.2 = false := by
  cases a
  case FORWARD =>
    have hp : s.update_target.forward_candidate = p := by
      simpa [NavState.action_candidate] using hc
    have hmv : s.update_target.move_forward = (s.update_target, false) := by
      unfold NavState.move_forward
      rw [if_neg]
      exact fun hmem => hout (hp ▸ hmem)
    refine ⟨?_, ?_⟩
    · show (s.update_target.move_forward).1.position = s.position
      rw [hmv]
      exact update_target_position s
    · show (s.update_target.move_forward).2 = false
      rw [hmv]
  case BACKWARD =>
    have hp : s.update_target.backward_candidate = p := by
      simpa [NavState.action_candidate] using hc
    have hmv : s.update_target.move_backward = (s.update_target, false) := by
      unfold NavState.move_backward
      rw [if_neg]
      exact fun hmem => hout (hp ▸ hmem)
    refine ⟨?_, ?_⟩
    · show (s.update_target.move_backward).1.position = s.position
      rw [hmv]
      exact update_target_position s
    · show (s.update_target.move_backward).2 = false
      rw [hmv]
  case ROTATE_LEFT => simp [NavState.action_candidate] at hc
  case ROTATE_RIGHT => simp [NavState.action_candidate] at hc

theorem navBlocked_update : navBlocked.update_target = navBlocked := by
  unfold NavState.update_target
  rw [dif_neg]
  rintro ⟨hclose, -⟩
  unfold close_enough Pt.magnitude at hclose
  rw [show navBlocked.distance_threshold = 0 from rfl] at hclose
  exact absurd hclose (not_lt.mpr (Real.sqrt_nonneg _))

/-- C3 witness: a forward step of length 2 from `(9,5)`, heading `0`, lands at
`(11,5)` outside `box0`; the position is unchanged and `moved = false`. -/
theorem take_action_rejects_outside_move_witness :
    (navBlocked.take_action Action.FORWARD).1.position = navBlocked.position ∧
    (navBlocked.take_action Action.FORWARD).2.2.2 = false :=
  take_action_rejects_outside_move navBlocked Action.FORWARD ⟨11, 5⟩
    (by rw [navBlocked_update]
        simp [NavState.action_candidate, NavState.forward_candidate, navBlocked,
          Real.cos_zero, Real.sin_zero]
        norm_num)
    (by rw [navBlocked_update]
        norm_num [navBlocked, box0, Box.make, Box.point_is_inside, Pt.scalar_product])

/-- C4: `update_target` advances the target and the current box to the last
box of the environment enclosing the position exactly when the position is
within `distance_threshold` of the target and more than one box encloses it;
otherwise it changes nothing. -/
theorem update_target_spec (s : NavState) :
    ((close_enough s.position s.target s.distance_threshold ∧
        1 < (s.env.get_boxes_enclosing_point s.position).length) →
      ∃ lastBox, (s.env.get_boxes_enclosing_point s.position).getLast? = some lastBox ∧
        s.update_target = { s with target := lastBox.target, current_box := lastBox }) ∧
    (¬ (close_enough s.position s.target s.distance_threshold ∧
        1 < (s.env.get_boxes_enclosing_point s.position).length) →
      s.update_target = s) := by
  constructor
  · intro h
    have hne : s.env.get_boxes_enclosing_point s.position ≠ [] :=
      List.ne_nil_of_length_pos (lt_trans Nat.zero_lt_one h.2)
    refine ⟨(s.env.get_boxes_enclosing_point s.position).getLast hne,
      List.getLast?_eq_getLast _ hne, ?_⟩
    unfold NavState.update_target
    rw [dif_pos h]
  · intro h
    unfold NavState.update_target
    rw [dif_neg h]

theorem env2_enclosing : env2.get_boxes_enclosing_point ⟨1, 1⟩ = [boxA, boxB] := by
  unfold BoxEnv.get_boxes_enclosing_point env2
  rw [List.filter_cons_of_pos, List.filter_cons_of_pos, List.filter_nil]
  · rw [decide_eq_true_eq]
    norm_num [boxB, Box.make, Box.point_is_inside, Pt.scalar_product]
  · rw [decide_eq_true_eq]
    norm_num [boxA, Box.make, Box.point_is_inside, Pt.scalar_product]

/-- C4 witness: in the overlap of `env2`, at the current target, the target
and box advance to `boxB`, the last enclosing box. -/
theorem update_target_spec_witness :
    ∃ lastBox,
      (navOverlap.env.get_boxes_enclosing_point navOverlap.position).getLast? =
        some lastBox ∧
      navOverlap.update_target =
        { navOverlap with target := lastBox.target, current_box := lastBox } :=
  (update_target_spec navOverlap).1
    ⟨by simp [navOverlap, close_enough, Pt.magnitude],
     by have he : navOverlap.env.get_boxes_enclosing_point navOverlap.position =
          [boxA, boxB] := env2_enclosing
        rw [he]
        simp⟩

/-- C10: one step of `take_action` preserves the containment invariant: if the
current box contains the position before the step, the (possibly updated)
current box contains the (possibly updated) position after it. -/
theorem take_action_preserves_containment (s : NavState) (a : Action)
    (h : s.current_box.point_is_inside s.position) :
    (s.take_action a).1.current_box.point_is_inside (s.take_action a).1.position := by
  have h1 := update_target_contain s h
  cases a
  case FORWARD => exact move_forward_contain s.update_target h1
  case BACKWARD => exact move_backward_contain s.update_target h1
  case ROTATE_LEFT => exact h1
  case ROTATE_RIGHT => exact h1

/-- C10 witness: rotating left from the middle of `box0` keeps the position in
the current box. -/
theorem take_action_preserves_containment_witness :
    (nav0.take_action Action.ROTATE_LEFT).1.current_box.point_is_inside
      (nav0.take_action Action.ROTATE_LEFT).1.position :=
  take_action_preserves_containment nav0 Action.ROTATE_LEFT
    (by norm_num [nav0, box0, Box.make, Box.point_is_inside, Pt.scalar_product])

theorem navFacing_signed_angle : navFacing.signed_angle_to_target = 0 := by
  unfold NavState.signed_angle_to_target Pt.angle_between Pt.determinant Pt.scalar_product
    Pt.normalized Pt.magnitude atan2
  norm_num [navFacing, Real.cos_zero, Real.sin_zero, Real.sqrt_one, Real.arctan_zero]

/-- C2 witness: a navigator facing straight at its target has signed angle `0`
and chooses FORWARD. -/
theorem correct_action_spec_witness :
    navFacing.signed_angle_to_target = 0 ∧ navFacing.correct_action = Action.FORWARD :=
  ⟨navFacing_signed_angle,
    (correct_action_spec navFacing).2.2.2.2.2
      (by rw [show navFacing.half_target_wedge = radians 6 from rfl]
          unfold radians
          positivity)
      navFacing_signed_angle⟩

/-- C5 witness: a concrete box built with rotation `π` equals the box of the
pre-rotated corners. -/
theorem rotation_applied_witness :
    Box.make ⟨1, 2⟩ ⟨3, 4⟩ ⟨5, 6⟩ ⟨7, 8⟩ Real.pi =
      { Box.make (rotate_point ⟨1, 2⟩ Real.pi) (rotate_point ⟨3, 4⟩ Real.pi)
          (rotate_point ⟨5, 6⟩ Real.pi) (rotate_point ⟨7, 8⟩ Real.pi) 0 with
        rotation := Real.pi } :=
  (rotation_applied_before_derived_fields ⟨0, 0⟩ Real.pi ⟨1, 2⟩ ⟨3, 4⟩ ⟨5, 6⟩ ⟨7, 8⟩).2
    Real.pi_ne_zero

/-- C8 witness: a draw of `0` against the default chance `0.25` selects the
first element of the random set, FORWARD. -/
theorem strategy_actions_witness :
    wandering_navigator_action navFacing default_chance_of_random_action 0 0 =
      Action.FORWARD := by
  have h := (strategy_actions navFacing default_chance_of_random_action 0 0).2.2.2.1
    (by norm_num [default_chance_of_random_action])
  rw [h]
  rfl

/-- C7 witness: the unit vector `(1, 0)` normalizes to within `1e-4` of unit
magnitude. -/
theorem normalized_spec_witness :
    approx_equal (Pt.mk 1 0).normalized.magnitude 1 0.0001 :=
  (normalized_spec ⟨1, 0⟩).2.2.1
    (by rw [show (Pt.mk 1 0).magnitude = Real.sqrt (1 * 1 + 0 * 0) from rfl]
        norm_num [Real.sqrt_one])

end BoxNav
